import Mathlib

/-!
Shallow embedding of the ticket bot in `src/main.py` (single-guild Discord
ticket tool backed by an sqlite `tickets` table), together with theorems
settling the frozen claims about its specification.

Conventions of the embedding:
* Discord snowflake ids (threads, channels, users, roles) are `Nat`.
* The `tickets` table is a `List TicketRecord`; `thread_id` is declared
  `UNIQUE` in the schema and `INSERT OR IGNORE` is the only insert, so the
  embedding's `createTicket` inserts only when no record with the same
  `threadId` is present.
* Platform calls that can fail (`channel.edit(archived=True)`,
  `thread.delete()`, channel resolution, message sends) are modelled by
  explicit `Bool` outcome parameters.
* Handlers are modelled from the point where the interaction has been
  established to fire inside a thread (the `isinstance(channel, Thread)`
  guard); `tid` is the id of that ambient thread.
-/

namespace Ticky

/-- `status` column values: `'open'`, `'closed'`, `'deleted'` (main.py lines
201, 442, 540). -/
inductive Status where
  | open_
  | closed
  | deleted
deriving DecidableEq, Repr

/-- One row of the `tickets` table (schema at main.py lines 43-55). -/
structure TicketRecord where
  threadId : Nat
  channelId : Nat
  userId : Nat
  choice : String
  createdAt : Nat
  closedAt : Option Nat
  status : Status
  claimedBy : Option Nat
deriving DecidableEq, Repr

/-- Process-wide configuration: `STAFF_ROLE_ID` from the environment, and the
set of roles existing in the configured guild (`member.guild.get_role`
returns a role exactly when it exists in the guild). -/
structure Env where
  staffRoleId : Option Nat
  guildRoles : List Nat
deriving Repr

/-- A guild member as `is_staff` sees it: id, the `administrator` guild
permission, and the ids of the roles the member holds. -/
structure Member where
  id : Nat
  isAdministrator : Bool
  roles : List Nat
deriving DecidableEq, Repr

/-- `is_staff` (main.py lines 90-99): `None` is not staff; administrators are
staff; otherwise staff iff `STAFF_ROLE_ID` is set, resolves via
`guild.get_role`, and is among the member's roles. -/
def is_staff (env : Env) (member : Option Member) : Bool :=
  match member with
  | none => false
  | some m =>
    if m.isAdministrator then true
    else
      match env.staffRoleId with
      | some rid => env.guildRoles.contains rid && m.roles.contains rid
      | none => false

/-- `SELECT * FROM tickets WHERE thread_id = ?` + `fetchone()` (the only
lookup path, e.g. main.py lines 431-433). -/
def lookupTicket (store : List TicketRecord) (tid : Nat) : Option TicketRecord :=
  store.find? (fun r => r.threadId == tid)

/-- `INSERT OR IGNORE INTO tickets ...` (main.py lines 198-204): with
`thread_id` declared `UNIQUE`, the row is inserted only when no row with the
same `thread_id` exists; otherwise the statement is ignored. -/
def createTicket (store : List TicketRecord) (rec : TicketRecord) : List TicketRecord :=
  if store.any (fun r => r.threadId == rec.threadId) then store else store ++ [rec]

/-- Row effect of `UPDATE tickets SET status = 'closed', closed_at = ? WHERE
thread_id = ?` (main.py line 442) on a single row. -/
def closeUpdate (tid now : Nat) (r : TicketRecord) : TicketRecord :=
  if r.threadId == tid then { r with status := Status.closed, closedAt := some now } else r

/-- The whole-table effect of the close `UPDATE` statement. -/
def updateStatusClosed (store : List TicketRecord) (tid now : Nat) : List TicketRecord :=
  store.map (closeUpdate tid now)

/-- Row effect of `UPDATE tickets SET claimed_by = ? WHERE thread_id = ?`
(main.py line 411). -/
def claimUpdate (tid uid : Nat) (r : TicketRecord) : TicketRecord :=
  if r.threadId == tid then { r with claimedBy := some uid } else r

/-- Row effect of `UPDATE tickets SET status = 'deleted', closed_at = ? WHERE
thread_id = ?` (main.py line 540). -/
def deleteUpdate (tid now : Nat) (r : TicketRecord) : TicketRecord :=
  if r.threadId == tid then { r with status := Status.deleted, closedAt := some now } else r

/-- User-visible outcome class of `handle_close`. -/
inductive CloseResult where
  | permissionDenied
  | archiveError
  | closedOk
deriving DecidableEq, Repr

/-- Outcome of `handle_close`: reported result, resulting table, and whether
`channel.edit(archived=True)` was performed successfully. -/
structure CloseOutcome where
  result : CloseResult
  store : List TicketRecord
  threadArchived : Bool
deriving DecidableEq, Repr

/-- `handle_close` (main.py lines 423-464), invoked inside thread `tid`.
The row is fetched; `ticket_owner_id` is `None` when there is no row.  The
actor is denied unless `is_staff(member)` or `ticket_owner_id == member.id`
(a `None` owner never equals a member id).  Otherwise the thread is archived
and only on archive success is the `UPDATE` executed; an archive failure
returns an error with no table write.  `archiveOk` models whether
`channel.edit(archived=True)` succeeds. -/
def handle_close (env : Env) (store : List TicketRecord) (tid : Nat) (member : Member)
    (now : Nat) (archiveOk : Bool) : CloseOutcome :=
  if is_staff env (some member)
      || (lookupTicket store tid).map (fun r => r.userId) == some member.id then
    if archiveOk then
      { result := CloseResult.closedOk
        store := updateStatusClosed store tid now
        threadArchived := true }
    else
      { result := CloseResult.archiveError, store := store, threadArchived := false }
  else
    { result := CloseResult.permissionDenied, store := store, threadArchived := false }

/-- C1: for every actor and every thread whose ticket record exists, the close
operation is permitted (not answered with the permission denial) iff the
actor is staff or the actor's id equals the ticket's `user_id`; a denied
actor causes no store write and no archive. -/
theorem close_permission (env : Env) (store : List TicketRecord) (tid : Nat)
    (m : Member) (now : Nat) (archiveOk : Bool) (r : TicketRecord)
    (hrow : lookupTicket store tid = some r) :
    ((handle_close env store tid m now archiveOk).result ≠ CloseResult.permissionDenied
      ↔ (is_staff env (some m) = true ∨ r.userId = m.id))
    ∧ ((handle_close env store tid m now archiveOk).result = CloseResult.permissionDenied →
        (handle_close env store tid m now archiveOk).store = store
        ∧ (handle_close env store tid m now archiveOk).threadArchived = false) := by
  unfold handle_close
  rw [hrow]
  by_cases hs : is_staff env (some m) = true
  · cases archiveOk <;> simp [hs]
  · by_cases ho : r.userId = m.id
    · cases archiveOk <;> simp [ho, hs]
    · have hbeq : (some r.userId == some m.id) = false := by
        simp [ho]
      simp [hs, hbeq, ho]

/-- Witness for C1 at a concrete input: the ticket owner (a non-staff member)
is permitted to close. -/
theorem close_permission_witness :
    (handle_close ⟨some 5, [5]⟩
      [{ threadId := 1, channelId := 2, userId := 3, choice := "other", createdAt := 0,
         closedAt := none, status := Status.open_, claimedBy := none }]
      1 ⟨3, false, []⟩ 100 true).result ≠ CloseResult.permissionDenied :=
  (close_permission ⟨some 5, [5]⟩
      [{ threadId := 1, channelId := 2, userId := 3, choice := "other", createdAt := 0,
         closedAt := none, status := Status.open_, claimedBy := none }]
      1 ⟨3, false, []⟩ 100 true
      { threadId := 1, channelId := 2, userId := 3, choice := "other", createdAt := 0,
        closedAt := none, status := Status.open_, claimedBy := none }
      (by decide)).1.mpr (Or.inr rfl)

/-- The close `UPDATE` leaves the lookup result for `tid` as the old row with
`status = 'closed'` and `closed_at` overwritten. -/
theorem lookup_updateStatusClosed (store : List TicketRecord) (tid now : Nat)
    (r : TicketRecord) (hrow : lookupTicket store tid = some r) :
    lookupTicket (updateStatusClosed store tid now) tid
      = some { r with status := Status.closed, closedAt := some now } := by
  unfold lookupTicket updateStatusClosed at *
  induction store with
  | nil => simp at hrow
  | cons a l ih =>
    by_cases ha : (a.threadId == tid) = true
    · have ha' : ((closeUpdate tid now a).threadId == tid) = true := by
        unfold closeUpdate
        simp [ha]
      simp only [List.find?_cons, ha] at hrow
      simp only [List.map_cons, List.find?_cons, ha']
      cases hrow
      unfold closeUpdate
      simp [ha]
    · rw [Bool.not_eq_true] at ha
      have ha' : ((closeUpdate tid now a).threadId == tid) = false := by
        unfold closeUpdate
        simp [ha]
      simp only [List.find?_cons, ha] at hrow
      simp only [List.map_cons, List.find?_cons, ha']
      exact ih hrow

/-- When no row matches `tid`, the close `UPDATE` changes nothing. -/
theorem updateStatusClosed_no_match (store : List TicketRecord) (tid now : Nat)
    (hrow : lookupTicket store tid = none) :
    updateStatusClosed store tid now = store := by
  unfold lookupTicket at hrow
  rw [List.find?_eq_none] at hrow
  unfold updateStatusClosed
  have : ∀ r ∈ store, closeUpdate tid now r = r := by
    intro r hr
    unfold closeUpdate
    have := hrow r hr
    simp at this
    simp [this]
  calc store.map (closeUpdate tid now) = store.map id := List.map_congr_left (by simpa using this)
    _ = store := List.map_id store

/-- C6: if archiving the thread fails, `handle_close` aborts before any store
write: the table (hence `status` and `closed_at`) is unchanged, the thread is
not archived, and an authorized actor receives the archive-failure error. -/
theorem close_archive_failure (env : Env) (store : List TicketRecord) (tid : Nat)
    (m : Member) (now : Nat) :
    (handle_close env store tid m now false).store = store
    ∧ (handle_close env store tid m now false).threadArchived = false
    ∧ ((is_staff env (some m) = true
          ∨ (lookupTicket store tid).map (fun r => r.userId) = some m.id) →
        (handle_close env store tid m now false).result = CloseResult.archiveError) := by
  unfold handle_close
  cases hc : (is_staff env (some m)
      || ((lookupTicket store tid).map (fun r => r.userId) == some m.id))
  · refine ⟨rfl, rfl, fun h => ?_⟩
    rcases h with h | h
    · rw [h] at hc
      simp at hc
    · rw [h] at hc
      simp at hc
  · exact ⟨rfl, rfl, fun _ => rfl⟩

/-- Witness for C6 at a concrete input: staff close with failing archival
leaves the store unchanged and reports the archive error. -/
theorem close_archive_failure_witness :
    (handle_close ⟨some 5, [5]⟩
      [{ threadId := 1, channelId := 2, userId := 3, choice := "staff", createdAt := 0,
         closedAt := none, status := Status.open_, claimedBy := none }]
      1 ⟨9, true, []⟩ 77 false).store
      = [{ threadId := 1, channelId := 2, userId := 3, choice := "staff", createdAt := 0,
           closedAt := none, status := Status.open_, claimedBy := none }]
    ∧ (handle_close ⟨some 5, [5]⟩
      [{ threadId := 1, channelId := 2, userId := 3, choice := "staff", createdAt := 0,
         closedAt := none, status := Status.open_, claimedBy := none }]
      1 ⟨9, true, []⟩ 77 false).result = CloseResult.archiveError :=
  ⟨(close_archive_failure ⟨some 5, [5]⟩ _ 1 ⟨9, true, []⟩ 77).1,
   (close_archive_failure ⟨some 5, [5]⟩ _ 1 ⟨9, true, []⟩ 77).2.2 (Or.inl (by decide))⟩

/-- C3 counterexample: a ticket whose status is already `closed` (closed at
time 50) is closed again by its owner with a successful archive; the second
attempt is NOT rejected — it reports success, re-archives the thread, and
rewrites `closed_at` to the new time 100. -/
theorem second_close_counterexample :
    (handle_close ⟨some 5, [5]⟩
      [{ threadId := 1, channelId := 2, userId := 3, choice := "other", createdAt := 0,
         closedAt := some 50, status := Status.closed, claimedBy := none }]
      1 ⟨3, false, []⟩ 100 true)
    = { result := CloseResult.closedOk,
        store := [{ threadId := 1, channelId := 2, userId := 3, choice := "other",
                    createdAt := 0, closedAt := some 100, status := Status.closed,
                    claimedBy := none }],
        threadArchived := true } := by decide

/-- C3 amended: a second close attempt on a `closed` ticket by an authorized
actor (staff or creator) with successful archival is not rejected: it
silently repeats the archive step and rewrites `closed_at` to the new time
(status stays `closed`); only actors who are neither staff nor creator are
denied. -/
theorem second_close_rearchives (env : Env) (store : List TicketRecord) (tid : Nat)
    (m : Member) (now : Nat) (r : TicketRecord)
    (hrow : lookupTicket store tid = some r) (hst : r.status = Status.closed)
    (hauth : is_staff env (some m) = true ∨ r.userId = m.id) :
    (handle_close env store tid m now true).result = CloseResult.closedOk
    ∧ (handle_close env store tid m now true).threadArchived = true
    ∧ lookupTicket (handle_close env store tid m now true).store tid
        = some { r with status := Status.closed, closedAt := some now } := by
  have hc : (is_staff env (some m)
      || ((lookupTicket store tid).map (fun r => r.userId) == some m.id)) = true := by
    rcases hauth with h | h
    · simp [h]
    · simp [hrow, h]
  unfold handle_close
  rw [hc]
  exact ⟨rfl, rfl, lookup_updateStatusClosed store tid now r hrow⟩

/-- Witness for C3's amended claim at a concrete input. -/
theorem second_close_rearchives_witness :
    lookupTicket (handle_close ⟨some 5, [5]⟩
      [{ threadId := 1, channelId := 2, userId := 3, choice := "other", createdAt := 0,
         closedAt := some 50, status := Status.closed, claimedBy := none }]
      1 ⟨3, false, []⟩ 100 true).store 1
    = some { threadId := 1, channelId := 2, userId := 3, choice := "other", createdAt := 0,
             closedAt := some 100, status := Status.closed, claimedBy := none } :=
  (second_close_rearchives ⟨some 5, [5]⟩
    [{ threadId := 1, channelId := 2, userId := 3, choice := "other", createdAt := 0,
       closedAt := some 50, status := Status.closed, claimedBy := none }]
    1 ⟨3, false, []⟩ 100
    { threadId := 1, channelId := 2, userId := 3, choice := "other", createdAt := 0,
      closedAt := some 50, status := Status.closed, claimedBy := none }
    (by decide) rfl (Or.inr rfl)).2.2

/-- C10 counterexample: a staff member invokes close in a thread with no
ticket record and the operation is NOT rejected: the permission check passes
(`is_staff` alone suffices), the thread is archived, and success is reported
(the `UPDATE` merely matches no rows). -/
theorem close_without_ticket_counterexample :
    (handle_close ⟨some 5, [5]⟩ [] 1 ⟨9, true, []⟩ 7 true)
      = { result := CloseResult.closedOk, store := [], threadArchived := true } := by decide

/-- C10 amended: in a thread with no ticket record, close rejects actors who
are not staff (the `None` owner matches nobody) with no state change; a staff
actor, however, passes the permission check: the store is never written (the
`UPDATE` matches no rows) but the thread IS archived and success is reported
when archival succeeds. -/
theorem close_without_ticket (env : Env) (store : List TicketRecord) (tid : Nat)
    (m : Member) (now : Nat) (archiveOk : Bool)
    (hrow : lookupTicket store tid = none) :
    (is_staff env (some m) = false →
      (handle_close env store tid m now archiveOk).result = CloseResult.permissionDenied
      ∧ (handle_close env store tid m now archiveOk).store = store
      ∧ (handle_close env store tid m now archiveOk).threadArchived = false)
    ∧ (is_staff env (some m) = true →
      (handle_close env store tid m now archiveOk).store = store
      ∧ (archiveOk = true →
          (handle_close env store tid m now archiveOk).result = CloseResult.closedOk
          ∧ (handle_close env store tid m now archiveOk).threadArchived = true)) := by
  constructor
  · intro hs
    unfold handle_close
    rw [hrow, hs]
    exact ⟨rfl, rfl, rfl⟩
  · intro hs
    unfold handle_close
    rw [hrow, hs]
    cases archiveOk
    · exact ⟨rfl, fun h => by cases h⟩
    · exact ⟨updateStatusClosed_no_match store tid now hrow, fun _ => ⟨rfl, rfl⟩⟩

/-- Witness for C10's amended claim at concrete inputs: a non-staff member is
denied; a staff member archives the non-ticket thread with no store write. -/
theorem close_without_ticket_witness :
    ((handle_close ⟨some 5, [5]⟩ [] 1 ⟨3, false, []⟩ 7 true).result
        = CloseResult.permissionDenied)
    ∧ (handle_close ⟨some 5, [5]⟩ [] 1 ⟨9, true, []⟩ 7 true).store = []
    ∧ (handle_close ⟨some 5, [5]⟩ [] 1 ⟨9, true, []⟩ 7 true).threadArchived = true :=
  ⟨((close_without_ticket ⟨some 5, [5]⟩ [] 1 ⟨3, false, []⟩ 7 true rfl).1 (by decide)).1,
   ((close_without_ticket ⟨some 5, [5]⟩ [] 1 ⟨9, true, []⟩ 7 true rfl).2 (by decide)).1,
   (((close_without_ticket ⟨some 5, [5]⟩ [] 1 ⟨9, true, []⟩ 7 true rfl).2 (by decide)).2 rfl).2⟩

/-- C5: creating a ticket twice with the same `threadId` is idempotent: the
second insertion is a no-op, and when the store had no record with this
`threadId` before, exactly one record — the one from the first insertion,
with its fields — is present afterwards. -/
theorem createTicket_idempotent (store : List TicketRecord) (r1 r2 : TicketRecord)
    (hid : r2.threadId = r1.threadId) :
    createTicket (createTicket store r1) r2 = createTicket store r1
    ∧ (store.any (fun r => r.threadId == r1.threadId) = false →
        (createTicket (createTicket store r1) r2).filter
            (fun r => r.threadId == r1.threadId) = [r1]) := by
  constructor
  · unfold createTicket
    by_cases h : (store.any (fun r => r.threadId == r1.threadId)) = true
    · rw [hid, h]
      simp [h]
    · rw [Bool.not_eq_true] at h
      rw [hid, h]
      simp only [if_false, Bool.false_eq_true]
      have : ((store ++ [r1]).any (fun r => r.threadId == r1.threadId)) = true := by
        simp
      rw [this]
      simp
  · intro hnone
    unfold createTicket
    rw [hid, hnone]
    simp only [Bool.false_eq_true, if_false]
    have : ((store ++ [r1]).any (fun r => r.threadId == r1.threadId)) = true := by
      simp
    rw [this]
    simp only [if_true, List.filter_append]
    have hf : store.filter (fun r => r.threadId == r1.threadId) = [] := by
      rw [List.filter_eq_nil_iff]
      intro a ha
      have := List.any_eq_false.mp hnone a ha
      simp [this]
    rw [hf]
    simp

/-- Witness for C5 at a concrete input: inserting the same `threadId` twice
into an empty store keeps exactly the first record. -/
theorem createTicket_idempotent_witness :
    createTicket (createTicket []
        { threadId := 1, channelId := 2, userId := 3, choice := "purchase", createdAt := 10,
          closedAt := none, status := Status.open_, claimedBy := none })
        { threadId := 1, channelId := 2, userId := 4, choice := "other", createdAt := 11,
          closedAt := none, status := Status.open_, claimedBy := none }
      = createTicket []
        { threadId := 1, channelId := 2, userId := 3, choice := "purchase", createdAt := 10,
          closedAt := none, status := Status.open_, claimedBy := none }
    ∧ (createTicket (createTicket []
        { threadId := 1, channelId := 2, userId := 3, choice := "purchase", createdAt := 10,
          closedAt := none, status := Status.open_, claimedBy := none })
        { threadId := 1, channelId := 2, userId := 4, choice := "other", createdAt := 11,
          closedAt := none, status := Status.open_, claimedBy := none }).filter
        (fun r => r.threadId == 1)
      = [{ threadId := 1, channelId := 2, userId := 3, choice := "purchase", createdAt := 10,
           closedAt := none, status := Status.open_, claimedBy := none }] :=
  ⟨(createTicket_idempotent []
      { threadId := 1, channelId := 2, userId := 3, choice := "purchase", createdAt := 10,
        closedAt := none, status := Status.open_, claimedBy := none }
      { threadId := 1, channelId := 2, userId := 4, choice := "other", createdAt := 11,
        closedAt := none, status := Status.open_, claimedBy := none }
      rfl).1,
   (createTicket_idempotent []
      { threadId := 1, channelId := 2, userId := 3, choice := "purchase", createdAt := 10,
        closedAt := none, status := Status.open_, claimedBy := none }
      { threadId := 1, channelId := 2, userId := 4, choice := "other", createdAt := 11,
        closedAt := none, status := Status.open_, claimedBy := none }
      rfl).2 rfl⟩

/-- Bulk staff provisioning (main.py lines 182-196): the members of the
configured staff role, in platform order, are truncated to
`STAFF_ADD_LIMIT` (`members[:STAFF_ADD_LIMIT]`) and added one by one;
`fallback_role_mention` is set iff `len(members) > STAFF_ADD_LIMIT`.
(The `if members:` guard changes nothing: on an empty list no member is
added and the flag stays `False` either way.) -/
def bulk_add_staff (members : List Nat) (limit : Nat) : List Nat × Bool :=
  (members.take limit, decide (members.length > limit))

/-- C8: bulk provisioning attempts to add exactly the first `staffAddLimit`
role members in platform order (all of them when the role is smaller), and
sets the fallback-mention flag iff the membership count exceeds the limit. -/
theorem bulk_add_staff_spec (members : List Nat) (limit : Nat) :
    (bulk_add_staff members limit).1.length = min limit members.length
    ∧ (∀ i : Nat, i < limit → (bulk_add_staff members limit).1[i]? = members[i]?)
    ∧ (members.length ≤ limit → (bulk_add_staff members limit).1 = members)
    ∧ ((bulk_add_staff members limit).2 = true ↔ members.length > limit) := by
  refine ⟨List.length_take limit members, fun i hi => ?_,
    fun hle => List.take_of_length_le hle, ?_⟩
  · unfold bulk_add_staff
    rw [List.getElem?_take]
    simp [hi]
  · unfold bulk_add_staff
    simp

/-- Witness for C8 at the spec's concrete inputs: 25 members with limit 20
adds the first 20 (e.g. position 5 agrees with the role order) and sets the
flag; 15 members adds all 15 and the flag is clear. -/
theorem bulk_add_staff_spec_witness :
    (bulk_add_staff (List.range 25) 20).2 = true
    ∧ (bulk_add_staff (List.range 25) 20).1[5]? = (List.range 25)[5]?
    ∧ (bulk_add_staff (List.range 15) 20).1 = List.range 15
    ∧ (bulk_add_staff (List.range 15) 20).2 = false :=
  ⟨(bulk_add_staff_spec (List.range 25) 20).2.2.2.mpr (by decide),
   (bulk_add_staff_spec (List.range 25) 20).2.1 5 (by decide),
   (bulk_add_staff_spec (List.range 15) 20).2.2.1 (by decide),
   by decide⟩

/-- Python's `str.isalnum`, per character, modelled for code points below
0x100 (Basic Latin and Latin-1, the only characters appearing in the inputs
considered here): ASCII letters and digits; the Latin-1 letters U+00C0-U+00FF
except the operators × (U+00D7) and ÷ (U+00F7); and the Latin-1
alphanumerics ª µ º ² ³ ¹.  Note Python's `isalnum` is Unicode-aware, so
letters like 'ö' count as alphanumeric. -/
def pyIsAlnum (c : Char) : Bool :=
  ('a' ≤ c && c ≤ 'z') || ('A' ≤ c && c ≤ 'Z') || ('0' ≤ c && c ≤ '9')
  || (0xC0 ≤ c.toNat && c.toNat ≤ 0xFF && c.toNat != 0xD7 && c.toNat != 0xF7)
  || c.toNat == 0xAA || c.toNat == 0xB5 || c.toNat == 0xBA
  || c.toNat == 0xB2 || c.toNat == 0xB3 || c.toNat == 0xB9

/-- Python's `str.lower`, per character, modelled for code points below
0x100: ASCII upper case and the Latin-1 upper-case letters U+00C0-U+00DE
(except ×) map down by 0x20; everything else is unchanged. -/
def pyLower (c : Char) : Char :=
  if 'A' ≤ c && c ≤ 'Z' then Char.ofNat (c.toNat + 32)
  else if 0xC0 ≤ c.toNat && c.toNat ≤ 0xDE && c.toNat != 0xD7 then Char.ofNat (c.toNat + 32)
  else c

/-- `thread_safe_name` (main.py lines 83-88).  `rnd` models the 16-bit value
read from `os.urandom(2)`; the code computes `rnd % 9000 + 1000`.  The base
is `(choice or 'ticket')` lower-cased, filtered to alphanumerics plus `-` and
`_`, truncated to 12; the user part is the username lower-cased, filtered to
alphanumerics (Python semantics, so Unicode letters survive), truncated to 8,
with fallback `"u"` when empty. -/
def thread_safe_name (choice username : String) (rnd : Nat) : String :=
  String.mk (((if choice = "" then "ticket" else choice).data.map pyLower).filter
      (fun c => pyIsAlnum c || c == '-' || c == '_') |>.take 12)
    ++ "-"
    ++ String.mk (let user0 := ((username.data.map pyLower).filter pyIsAlnum).take 8
        if user0.isEmpty then ['u'] else user0)
    ++ "-"
    ++ Nat.repr (rnd % 9000 + 1000)

/-- Character class `[a-z0-9]` of the spec's pattern. -/
def isAsciiLowerDigit (c : Char) : Bool :=
  ('a' ≤ c && c ≤ 'z') || ('0' ≤ c && c ≤ '9')

/-- Character class `[a-z0-9_-]` of the spec's pattern. -/
def isPatternBaseChar (c : Char) : Bool :=
  isAsciiLowerDigit c || c == '-' || c == '_'

/-- Decision procedure for the spec's anchored pattern
`[a-z0-9_-]{1,12}-[a-z0-9]{1,8}-[0-9]{4}` over the whole string (this is the
spec's words, stated to compare the generator against them).  In any match
the four digits are the last four characters, preceded by a literal `-`; the
remaining prefix must split at some `-` into the base ([a-z0-9_-], length
1-12) and the user part ([a-z0-9], length 1-8). -/
def specNamePattern (s : String) : Bool :=
  let l := s.data
  let n := l.length
  decide (8 ≤ n)
  && (l.drop (n - 4)).all (fun c => '0' ≤ c && c ≤ '9')
  && (l.getD (n - 5) ' ' == '-')
  && (let rest := l.take (n - 5)
      (List.range rest.length).any (fun i =>
        (rest.getD i ' ' == '-')
        && decide (1 ≤ i) && decide (i ≤ 12) && (rest.take i).all isPatternBaseChar
        && decide (1 ≤ rest.length - (i + 1)) && decide (rest.length - (i + 1) ≤ 8)
        && (rest.drop (i + 1)).all isAsciiLowerDigit))

/-- C9 counterexample: for `(category="Staff Help!!", username="Jöhn_Doe123")`
the generated name (here with random bytes value 0, giving suffix 1000) does
NOT match `^[a-z0-9_-]{1,12}-[a-z0-9]{1,8}-[0-9]{4}$`: Python's `isalnum`
keeps the Unicode letter 'ö', which the pattern's ASCII classes exclude. -/
theorem thread_safe_name_counterexample :
    specNamePattern (thread_safe_name "Staff Help!!" "Jöhn_Doe123" 0) = false
    ∧ 'ö' ∈ (thread_safe_name "Staff Help!!" "Jöhn_Doe123" 0).data
    ∧ thread_safe_name "Staff Help!!" "Jöhn_Doe123" 0 = "staffhelp-jöhndoe1-1000" := by
  refine ⟨?_, ?_, ?_⟩ <;> decide

/-- C9 amended: the name has the shape `base-user-rand` with `base` the
category lower-cased, restricted to alphanumerics plus `-`/`_`, truncated to
12, and `rand = rnd % 9000 + 1000 ∈ [1000, 9999]`; but `user` keeps every
character Python's Unicode `isalnum` accepts, so for
`(category="Staff Help!!", username="Jöhn_Doe123")` the user part is
`"jöhndoe1"` (retaining 'ö') and the name does not match the ASCII pattern;
for an ASCII-only name such as `"John_Doe123"` the pattern does match. -/
theorem thread_safe_name_shape (rnd : Nat) :
    thread_safe_name "Staff Help!!" "Jöhn_Doe123" rnd
      = "staffhelp-jöhndoe1-" ++ Nat.repr (rnd % 9000 + 1000)
    ∧ 1000 ≤ rnd % 9000 + 1000 ∧ rnd % 9000 + 1000 ≤ 9999
    ∧ isAsciiLowerDigit 'ö' = false
    ∧ specNamePattern (thread_safe_name "Staff Help!!" "John_Doe123" 0) = true := by
  refine ⟨?_, Nat.le_add_left 1000 _, ?_, by decide, by decide⟩
  · unfold thread_safe_name
    congr 1
  · have h := Nat.mod_lt rnd (show 0 < 9000 by decide)
    omega

/-- User-visible outcome class of `handle_transcript`. -/
inductive TranscriptResult where
  | notATicket
  | permissionDenied
  | postedToChannel
  | sentViaDM
  | failed
deriving DecidableEq, Repr

/-- `handle_transcript` (main.py lines 466-505), invoked inside thread `tid`.
`defaultChan` is `get_config('transcript_channel_id')`; `resolvesText` models
"the configured channel could be fetched and is a `TextChannel`"; `postOk`
models the channel send succeeding; `dmOk` models the DM send succeeding.
Transcript generation itself is modelled as succeeding.  `posted` becomes
true only when the default channel is present, resolves to a text channel
and the send succeeds; otherwise the DM fallback runs, and only when that
also fails is the delivery failure reported. -/
def handle_transcript (env : Env) (store : List TicketRecord) (tid : Nat) (m : Member)
    (defaultChan : Option Nat) (resolvesText postOk dmOk : Bool) : TranscriptResult :=
  match lookupTicket store tid with
  | none => TranscriptResult.notATicket
  | some row =>
    if !(is_staff env (some m)) && row.userId != m.id then
      TranscriptResult.permissionDenied
    else if defaultChan.isSome && resolvesText && postOk then
      TranscriptResult.postedToChannel
    else if dmOk then
      TranscriptResult.sentViaDM
    else
      TranscriptResult.failed

/-- Outcome of the transcript step of `handle_close`. -/
inductive CloseTranscript where
  | postedToChannel
  | skipped
deriving DecidableEq, Repr

/-- Transcript delivery on the close path (main.py lines 447-457): only if
`get_config('transcript_channel_id')` is set, resolves to a text channel and
the send succeeds is the transcript posted; in every other case — including
no configured channel, a resolution failure, or a send failure (swallowed by
the bare `except: pass`) — nothing is delivered: there is no DM fallback and
no error is surfaced on this path. -/
def close_transcript (defaultChan : Option Nat) (resolvesText postOk : Bool) :
    CloseTranscript :=
  match defaultChan with
  | some _ =>
      if resolvesText && postOk then CloseTranscript.postedToChannel
      else CloseTranscript.skipped
  | none => CloseTranscript.skipped

/-- C7 counterexample: on the close path, with no default transcript channel
configured the transcript is silently skipped, and with a configured channel
whose send fails it is also silently skipped — there is no DM fallback and
no surfaced error — while the on-demand path in the same situation falls
back to a DM to the requester. -/
theorem close_transcript_counterexample :
    close_transcript none true true = CloseTranscript.skipped
    ∧ close_transcript (some 7) true false = CloseTranscript.skipped
    ∧ handle_transcript ⟨some 5, [5]⟩
        [{ threadId := 1, channelId := 2, userId := 3, choice := "other", createdAt := 0,
           closedAt := none, status := Status.open_, claimedBy := none }]
        1 ⟨3, false, []⟩ (some 7) true false true = TranscriptResult.sentViaDM := by
  refine ⟨rfl, rfl, ?_⟩
  decide

/-- C7 amended: the claimed resolution order (configured channel, then DM to
the requesting user, then a delivery-failure error) holds for on-demand
transcripts only: for an existing ticket and an authorized actor, the
transcript is posted to the default channel iff one is configured, resolves
to a text channel and the send succeeds; otherwise it is DMed iff the DM
succeeds; otherwise the failure is reported.  On close, the transcript is
posted iff the same channel condition holds and in every other case it is
silently dropped (no DM fallback, no error). -/
theorem transcript_delivery_policy (env : Env) (store : List TicketRecord) (tid : Nat)
    (m : Member) (defaultChan : Option Nat) (resolvesText postOk dmOk : Bool)
    (r : TicketRecord) (hrow : lookupTicket store tid = some r)
    (hauth : is_staff env (some m) = true ∨ r.userId = m.id) :
    (handle_transcript env store tid m defaultChan resolvesText postOk dmOk
        = TranscriptResult.postedToChannel
      ↔ (defaultChan.isSome = true ∧ resolvesText = true ∧ postOk = true))
    ∧ (handle_transcript env store tid m defaultChan resolvesText postOk dmOk
        = TranscriptResult.sentViaDM
      ↔ (¬(defaultChan.isSome = true ∧ resolvesText = true ∧ postOk = true)
          ∧ dmOk = true))
    ∧ (handle_transcript env store tid m defaultChan resolvesText postOk dmOk
        = TranscriptResult.failed
      ↔ (¬(defaultChan.isSome = true ∧ resolvesText = true ∧ postOk = true)
          ∧ dmOk = false))
    ∧ (close_transcript defaultChan resolvesText postOk = CloseTranscript.postedToChannel
      ↔ (defaultChan.isSome = true ∧ resolvesText = true ∧ postOk = true)) := by
  have hdeny : (!(is_staff env (some m)) && r.userId != m.id) = false := by
    rcases hauth with h | h
    · simp [h]
    · simp [h]
  unfold handle_transcript close_transcript
  rw [hrow]
  simp only [hdeny, Bool.false_eq_true, if_false]
  cases defaultChan <;> cases resolvesText <;> cases postOk <;> cases dmOk <;>
    simp_all

/-- Witness for C7's amended claim at concrete inputs: no configured channel
and a failing DM surfaces the failure on demand, while the close path with a
configured, resolving channel and successful send posts there. -/
theorem transcript_delivery_policy_witness :
    handle_transcript ⟨some 5, [5]⟩
        [{ threadId := 1, channelId := 2, userId := 3, choice := "other", createdAt := 0,
           closedAt := none, status := Status.open_, claimedBy := none }]
        1 ⟨3, false, []⟩ none true true false = TranscriptResult.failed
    ∧ close_transcript (some 7) true true = CloseTranscript.postedToChannel :=
  ⟨(transcript_delivery_policy ⟨some 5, [5]⟩
      [{ threadId := 1, channelId := 2, userId := 3, choice := "other", createdAt := 0,
         closedAt := none, status := Status.open_, claimedBy := none }]
      1 ⟨3, false, []⟩ none true true false
      { threadId := 1, channelId := 2, userId := 3, choice := "other", createdAt := 0,
        closedAt := none, status := Status.open_, claimedBy := none }
      (by decide) (Or.inr rfl)).2.2.1.mpr (by decide),
   (transcript_delivery_policy ⟨some 5, [5]⟩
      [{ threadId := 1, channelId := 2, userId := 3, choice := "other", createdAt := 0,
         closedAt := none, status := Status.open_, claimedBy := none }]
      1 ⟨3, false, []⟩ (some 7) true true false
      { threadId := 1, channelId := 2, userId := 3, choice := "other", createdAt := 0,
        closedAt := none, status := Status.open_, claimedBy := none }
      (by decide) (Or.inr rfl)).2.2.2.mpr (by decide)⟩

/-- The persistent custom identifiers the program attaches to its controls
(main.py lines 149, 228, 235, 242, 249, 256, 263, 277, 287 and the decorated
confirm/cancel buttons at lines 532 and 546): fixed strings, independent of
any ticket. -/
def fixedCustomIds : List String :=
  ["ticket_select_v2", "ticket_close_v2", "ticket_claim_v2", "ticket_transcript_v2",
   "ticket_lock_v2", "admin_delete_thread_v1", "admin_send_transcript_v1",
   "admin_post_default_v1", "admin_set_default_v1",
   "confirm_delete_button", "cancel_delete_button"]

/-- The two extra buttons `ConfirmDeleteView.__init__` adds (main.py lines
525-530): their custom ids are f-strings embedding `thread.id`. -/
def confirmDeleteViewAddedIds (threadId : Nat) : List String :=
  ["confirm_delete_" ++ Nat.repr threadId, "cancel_delete_" ++ Nat.repr threadId]

/-- All custom identifiers the program constructs when thread `threadId` is
involved. -/
def allCustomIds (threadId : Nat) : List String :=
  fixedCustomIds ++ confirmDeleteViewAddedIds threadId

/-- C2 counterexample: the set of control identifiers is NOT independent of
the ticket: for thread 1, `ConfirmDeleteView` constructs a button whose
custom id is `"confirm_delete_1"`, a ticket-specific value outside the fixed
handler-tag set, and the identifiers for thread 2 differ. -/
theorem custom_ids_counterexample :
    allCustomIds 1 ≠ allCustomIds 2
    ∧ "confirm_delete_1" ∈ allCustomIds 1
    ∧ "confirm_delete_1" ∉ fixedCustomIds := by
  refine ⟨?_, ?_, ?_⟩ <;> decide

/-- C2 amended: every control except the two buttons `ConfirmDeleteView`
adds carries a fixed handler-class tag, and the close handler re-derives its
per-ticket context at dispatch time purely from a by-thread lookup in the
ticket store (two stores agreeing on the ambient thread's row produce the
same close outcome); `ConfirmDeleteView.__init__`, however, additionally
embeds `thread.id` in its two added buttons' custom identifiers, which are
therefore ticket-specific. -/
theorem custom_id_routing (env : Env) (store store2 : List TicketRecord) (tid : Nat)
    (m : Member) (now : Nat) (archiveOk : Bool)
    (hsame : lookupTicket store tid = lookupTicket store2 tid) :
    (handle_close env store tid m now archiveOk).result
      = (handle_close env store2 tid m now archiveOk).result
    ∧ confirmDeleteViewAddedIds 123 ≠ confirmDeleteViewAddedIds 456 := by
  constructor
  · unfold handle_close
    rw [hsame]
    cases hc : (is_staff env (some m)
        || (lookupTicket store2 tid).map (fun r => r.userId) == some m.id)
    · rfl
    · cases archiveOk <;> rfl
  · decide

/-- Witness for C2's amended claim: two stores whose extra rows differ but
that agree on thread 1's row yield the same close outcome. -/
theorem custom_id_routing_witness :
    (handle_close ⟨some 5, [5]⟩
        [{ threadId := 1, channelId := 2, userId := 3, choice := "other", createdAt := 0,
           closedAt := none, status := Status.open_, claimedBy := none }]
        1 ⟨3, false, []⟩ 9 true).result
      = (handle_close ⟨some 5, [5]⟩
        [{ threadId := 1, channelId := 2, userId := 3, choice := "other", createdAt := 0,
           closedAt := none, status := Status.open_, claimedBy := none },
         { threadId := 4, channelId := 2, userId := 8, choice := "staff", createdAt := 1,
           closedAt := none, status := Status.open_, claimedBy := none }]
        1 ⟨3, false, []⟩ 9 true).result :=
  (custom_id_routing ⟨some 5, [5]⟩
    [{ threadId := 1, channelId := 2, userId := 3, choice := "other", createdAt := 0,
       closedAt := none, status := Status.open_, claimedBy := none }]
    [{ threadId := 1, channelId := 2, userId := 3, choice := "other", createdAt := 0,
       closedAt := none, status := Status.open_, claimedBy := none },
     { threadId := 4, channelId := 2, userId := 8, choice := "staff", createdAt := 1,
       closedAt := none, status := Status.open_, claimedBy := none }]
    1 ⟨3, false, []⟩ 9 true (by decide)).1

/-- User-visible outcome class of `handle_claim`. -/
inductive ClaimResult where
  | notATicket
  | permissionDenied
  | claimedOk
deriving DecidableEq, Repr

/-- Outcome of `handle_claim`. -/
structure ClaimOutcome where
  result : ClaimResult
  store : List TicketRecord
deriving DecidableEq, Repr

/-- `handle_claim` (main.py lines 393-421), invoked inside thread `tid`: a
missing row or a non-staff actor leaves the table unchanged; staff set
`claimed_by` on the matching row.  `status` is never touched. -/
def handle_claim (env : Env) (store : List TicketRecord) (tid : Nat) (member : Member) :
    ClaimOutcome :=
  match lookupTicket store tid with
  | none => { result := ClaimResult.notATicket, store := store }
  | some _ =>
    if is_staff env (some member) then
      { result := ClaimResult.claimedOk, store := store.map (claimUpdate tid member.id) }
    else
      { result := ClaimResult.permissionDenied, store := store }

/-- User-visible outcome class of the delete confirmation. -/
inductive DeleteResult where
  | permissionDenied
  | deleteError
  | deletedOk
deriving DecidableEq, Repr

/-- Outcome of the delete confirmation: reported result, resulting table, and
whether `thread.delete()` succeeded on the platform. -/
structure DeleteOutcome where
  result : DeleteResult
  store : List TicketRecord
  threadDeleted : Bool
deriving DecidableEq, Repr

/-- `ConfirmDeleteView.confirm` (main.py lines 532-544): staff permission is
re-checked at confirm time; then `thread.delete()` runs and only on its
success is the `UPDATE` to `status = 'deleted'` executed; a platform delete
failure returns an error with no table write.  `deleteOk` models whether
`thread.delete()` succeeds. -/
def confirm_delete (env : Env) (store : List TicketRecord) (tid : Nat) (member : Member)
    (now : Nat) (deleteOk : Bool) : DeleteOutcome :=
  if is_staff env (some member) then
    if deleteOk then
      { result := DeleteResult.deletedOk
        store := store.map (deleteUpdate tid now)
        threadDeleted := true }
    else
      { result := DeleteResult.deleteError, store := store, threadDeleted := false }
  else
    { result := DeleteResult.permissionDenied, store := store, threadDeleted := false }

/-- Combined system state: the `tickets` table plus the set of thread ids
that still exist on the platform. -/
structure Sys where
  store : List TicketRecord
  live : List Nat
deriving DecidableEq, Repr

/-- One lifecycle interaction (claim, close, or delete confirmation).  A
close or claim interaction fires inside its thread, which therefore still
exists on the platform (`tid ∈ live`); `thread.delete()` can succeed only on
an existing thread, and its success removes the thread from the platform. -/
inductive Step (env : Env) : Sys → Sys → Prop where
  | close (s : Sys) (tid : Nat) (member : Member) (now : Nat) (archiveOk : Bool)
      (hlive : tid ∈ s.live) :
      Step env s ⟨(handle_close env s.store tid member now archiveOk).store, s.live⟩
  | claim (s : Sys) (tid : Nat) (member : Member) (hlive : tid ∈ s.live) :
      Step env s ⟨(handle_claim env s.store tid member).store, s.live⟩
  | delete (s : Sys) (tid : Nat) (member : Member) (now : Nat) (deleteOk : Bool)
      (hlive : deleteOk = true → tid ∈ s.live) :
      Step env s ⟨(confirm_delete env s.store tid member now deleteOk).store,
        if (confirm_delete env s.store tid member now deleteOk).threadDeleted
        then s.live.filter (fun t => t != tid) else s.live⟩

/-- Position of a status along the forward chain open → closed → deleted. -/
def statusRank : Status → Nat
  | Status.open_ => 0
  | Status.closed => 1
  | Status.deleted => 2

/-- Record evolution order: the record keeps its `threadId` and its status
only moves forward along the chain. -/
def RecLe (r r2 : TicketRecord) : Prop :=
  r2.threadId = r.threadId ∧ statusRank r.status ≤ statusRank r2.status

/-- State invariant: a record marked `deleted` belongs to a thread that no
longer exists on the platform (its thread was successfully deleted). -/
def DeletedNotLive (s : Sys) : Prop :=
  ∀ r ∈ s.store, r.status = Status.deleted → r.threadId ∉ s.live

instance (s : Sys) : Decidable (DeletedNotLive s) := by
  unfold DeletedNotLive
  exact inferInstance

theorem recLe_refl (r : TicketRecord) : RecLe r r :=
  ⟨rfl, Nat.le_refl _⟩

theorem forall2_recLe_refl (l : List TicketRecord) : List.Forall₂ RecLe l l :=
  List.forall₂_same.2 fun r _ => recLe_refl r

theorem forall2_recLe_map (l : List TicketRecord) (f : TicketRecord → TicketRecord)
    (hf : ∀ r ∈ l, RecLe r (f r)) : List.Forall₂ RecLe l (l.map f) :=
  List.forall₂_map_right_iff.2 (List.forall₂_same.2 hf)

theorem forall2_recLe_trans {a b c : List TicketRecord}
    (h1 : List.Forall₂ RecLe a b) (h2 : List.Forall₂ RecLe b c) :
    List.Forall₂ RecLe a c := by
  induction h1 generalizing c with
  | nil =>
    cases h2
    exact List.Forall₂.nil
  | cons hab htl ih =>
    cases h2 with
    | cons hbc h2tl =>
      exact List.Forall₂.cons ⟨hbc.1.trans hab.1, hab.2.trans hbc.2⟩ (ih h2tl)

theorem statusRank_le_two (st : Status) : statusRank st ≤ 2 := by
  cases st <;> decide

/-- The close update moves each row forward provided the closing thread
still exists on the platform (so its row cannot already be deleted). -/
theorem closeUpdate_mono (s : Sys) (tid now : Nat) (hI : DeletedNotLive s)
    (hlive : tid ∈ s.live) :
    List.Forall₂ RecLe s.store (s.store.map (closeUpdate tid now)) := by
  apply forall2_recLe_map
  intro r hr
  unfold closeUpdate
  by_cases hb : (r.threadId == tid) = true
  · rw [if_pos hb]
    refine ⟨rfl, ?_⟩
    have hnd : r.status ≠ Status.deleted := by
      intro hrs
      rw [beq_iff_eq] at hb
      exact hI r hr hrs (by rw [hb]; exact hlive)
    cases hrs : r.status
    · exact Nat.zero_le _
    · exact Nat.le_refl _
    · exact absurd hrs hnd
  · rw [if_neg hb]
    exact recLe_refl r

theorem closeUpdate_inv (s : Sys) (tid now : Nat) (hI : DeletedNotLive s) :
    DeletedNotLive ⟨s.store.map (closeUpdate tid now), s.live⟩ := by
  intro r2 hr2 hdel
  obtain ⟨r, hr, rfl⟩ := List.mem_map.1 hr2
  unfold closeUpdate at hdel ⊢
  by_cases hb : (r.threadId == tid) = true
  · rw [if_pos hb] at hdel
    simp at hdel
  · rw [if_neg hb] at hdel ⊢
    exact hI r hr hdel

theorem claimUpdate_mono (store : List TicketRecord) (tid uid : Nat) :
    List.Forall₂ RecLe store (store.map (claimUpdate tid uid)) := by
  apply forall2_recLe_map
  intro r hr
  unfold claimUpdate
  by_cases hb : (r.threadId == tid) = true
  · rw [if_pos hb]
    exact ⟨rfl, Nat.le_refl _⟩
  · rw [if_neg hb]
    exact recLe_refl r

theorem claimUpdate_inv (s : Sys) (tid uid : Nat) (hI : DeletedNotLive s) :
    DeletedNotLive ⟨s.store.map (claimUpdate tid uid), s.live⟩ := by
  intro r2 hr2 hdel
  obtain ⟨r, hr, rfl⟩ := List.mem_map.1 hr2
  unfold claimUpdate at hdel ⊢
  by_cases hb : (r.threadId == tid) = true
  · rw [if_pos hb] at hdel ⊢
    exact hI r hr hdel
  · rw [if_neg hb] at hdel ⊢
    exact hI r hr hdel

theorem deleteUpdate_mono (store : List TicketRecord) (tid now : Nat) :
    List.Forall₂ RecLe store (store.map (deleteUpdate tid now)) := by
  apply forall2_recLe_map
  intro r hr
  unfold deleteUpdate
  by_cases hb : (r.threadId == tid) = true
  · rw [if_pos hb]
    exact ⟨rfl, statusRank_le_two r.status⟩
  · rw [if_neg hb]
    exact recLe_refl r

theorem deleteUpdate_inv (s : Sys) (tid now : Nat) (hI : DeletedNotLive s) :
    DeletedNotLive ⟨s.store.map (deleteUpdate tid now),
      s.live.filter (fun t => t != tid)⟩ := by
  intro r2 hr2 hdel
  obtain ⟨r, hr, rfl⟩ := List.mem_map.1 hr2
  unfold deleteUpdate at hdel ⊢
  by_cases hb : (r.threadId == tid) = true
  · rw [if_pos hb]
    intro hmem
    have hmem2 : r.threadId ∈ s.live.filter (fun t => t != tid) := hmem
    rw [List.mem_filter] at hmem2
    rw [beq_iff_eq] at hb
    rw [hb] at hmem2
    simp at hmem2
  · rw [if_neg hb] at hdel ⊢
    intro hmem
    have hmem2 : r.threadId ∈ s.live.filter (fun t => t != tid) := hmem
    rw [List.mem_filter] at hmem2
    exact hI r hr hdel hmem2.1

/-- Each single interaction preserves the invariant and moves every record
forward. -/
theorem step_preserves (env : Env) {s s2 : Sys} (h : Step env s s2)
    (hI : DeletedNotLive s) :
    DeletedNotLive s2 ∧ List.Forall₂ RecLe s.store s2.store := by
  cases h with
  | close tid member now archiveOk hlive =>
    cases hc : (is_staff env (some member)
        || (lookupTicket s.store tid).map (fun r => r.userId) == some member.id)
    · have hout : handle_close env s.store tid member now archiveOk
          = ⟨CloseResult.permissionDenied, s.store, false⟩ := by
        unfold handle_close
        rw [hc]
        rfl
      rw [hout]
      exact ⟨hI, forall2_recLe_refl _⟩
    · cases archiveOk
      · have hout : handle_close env s.store tid member now false
            = ⟨CloseResult.archiveError, s.store, false⟩ := by
          unfold handle_close
          rw [hc]
          rfl
        rw [hout]
        exact ⟨hI, forall2_recLe_refl _⟩
      · have hout : handle_close env s.store tid member now true
            = ⟨CloseResult.closedOk, s.store.map (closeUpdate tid now), true⟩ := by
          unfold handle_close
          rw [hc]
          rfl
        rw [hout]
        exact ⟨closeUpdate_inv s tid now hI, closeUpdate_mono s tid now hI hlive⟩
  | claim tid member hlive =>
    cases hrow : lookupTicket s.store tid
    · have hout : handle_claim env s.store tid member
          = ⟨ClaimResult.notATicket, s.store⟩ := by
        unfold handle_claim
        rw [hrow]
      rw [hout]
      exact ⟨hI, forall2_recLe_refl _⟩
    · cases hs : is_staff env (some member)
      · have hout : handle_claim env s.store tid member
            = ⟨ClaimResult.permissionDenied, s.store⟩ := by
          unfold handle_claim
          rw [hrow, hs]
          rfl
        rw [hout]
        exact ⟨hI, forall2_recLe_refl _⟩
      · have hout : handle_claim env s.store tid member
            = ⟨ClaimResult.claimedOk, s.store.map (claimUpdate tid member.id)⟩ := by
          unfold handle_claim
          rw [hrow, hs]
          rfl
        rw [hout]
        exact ⟨claimUpdate_inv s tid member.id hI, claimUpdate_mono s.store tid member.id⟩
  | delete tid member now deleteOk hlive =>
    cases hs : is_staff env (some member)
    · have hout : confirm_delete env s.store tid member now deleteOk
          = ⟨DeleteResult.permissionDenied, s.store, false⟩ := by
        unfold confirm_delete
        rw [hs]
        rfl
      rw [hout]
      exact ⟨hI, forall2_recLe_refl _⟩
    · cases deleteOk
      · have hout : confirm_delete env s.store tid member now false
            = ⟨DeleteResult.deleteError, s.store, false⟩ := by
          unfold confirm_delete
          rw [hs]
          rfl
        rw [hout]
        exact ⟨hI, forall2_recLe_refl _⟩
      · have hout : confirm_delete env s.store tid member now true
            = ⟨DeleteResult.deletedOk, s.store.map (deleteUpdate tid now), true⟩ := by
          unfold confirm_delete
          rw [hs]
          rfl
        rw [hout]
        exact ⟨deleteUpdate_inv s tid now hI, deleteUpdate_mono s.store tid now⟩

/-- Invariant and record-wise forward motion hold along every reachable
trace. -/
theorem reachable_preserves (env : Env) {s s2 : Sys}
    (h : Relation.ReflTransGen (Step env) s s2) (hI : DeletedNotLive s) :
    DeletedNotLive s2 ∧ List.Forall₂ RecLe s.store s2.store := by
  induction h with
  | refl => exact ⟨hI, forall2_recLe_refl _⟩
  | tail hab hbc ih =>
    obtain ⟨hIb, hmono⟩ := ih
    obtain ⟨hIc, hmono2⟩ := step_preserves env hbc hIb
    exact ⟨hIc, forall2_recLe_trans hmono hmono2⟩

/-- C4: along any sequence of claim, close and delete interactions from a
state where deleted tickets have no live thread, every ticket record keeps
its `threadId` and its status only moves forward along
open → closed → deleted (deletion may skip closed); no interaction ever
moves a status backward. -/
theorem status_moves_forward (env : Env) {s s2 : Sys}
    (h : Relation.ReflTransGen (Step env) s s2) (hI : DeletedNotLive s) :
    List.Forall₂ RecLe s.store s2.store :=
  (reachable_preserves env h hI).2

/-- Witness for C4: a concrete one-step trace (a staff close of an open
ticket) moves the record forward. -/
theorem status_moves_forward_witness :
    List.Forall₂ RecLe
      [{ threadId := 1, channelId := 2, userId := 3, choice := "other", createdAt := 0,
         closedAt := none, status := Status.open_, claimedBy := none }]
      (handle_close ⟨some 5, [5]⟩
        [{ threadId := 1, channelId := 2, userId := 3, choice := "other", createdAt := 0,
           closedAt := none, status := Status.open_, claimedBy := none }]
        1 ⟨9, true, []⟩ 50 true).store :=
  status_moves_forward ⟨some 5, [5]⟩
    (Relation.ReflTransGen.single
      (Step.close
        ⟨[{ threadId := 1, channelId := 2, userId := 3, choice := "other", createdAt := 0,
            closedAt := none, status := Status.open_, claimedBy := none }], [1]⟩
        1 ⟨9, true, []⟩ 50 true (by decide)))
    (by decide)

end Ticky
